import Mathlib

/-
Verification of the EquiVal projection-and-valuation pipeline against its
specification.  The development shallowly embeds the relevant Python modules:

  * src/valuation/dcf_and_reporting.py  (compute_wacc, dcf_valuation)
  * src/financial_analysis/financials_fmp.py
      (calculate_profitability_ratios, calculate_leverage_ratios,
       project_financials, calculate_equity_fcf, simulate_lbo_cashflows)
  * src/valuation/lbo.py  (lbo_model)

Modelling conventions:
  * Python floats are modelled as rationals (ℚ); the identities at stake are
    exact-arithmetic identities, stated "within floating-point tolerance" by
    the specification.
  * pandas DataFrames are modelled as lists of typed rows; for the Ratio
    Engine, where column membership is itself the property under study, a
    DataFrame is an explicit column-name list plus aligned rows of optional
    cells (a missing cell models NaN / pd.NA; a non-finite division result
    is likewise modelled as a missing cell).
  * Python exceptions are modelled with `Except String`; an exception that
    escapes the function is an `Except.error` carrying the exception name.
  * Network lookups (the yahooquery beta fetch) are modelled as an explicit
    `Option ℚ` argument: `none` is a failed or missing lookup.
-/

deriving instance DecidableEq for Except

namespace EquiVal

/-! ## DCF valuator (src/valuation/dcf_and_reporting.py, dcf_valuation) -/

/-- One row of the projection table handed to `dcf_valuation`: the columns
`year` and `fcf` are always present; the optional `ebitda` models presence or
absence of the `ebitda` column at the row that `dcf_valuation` actually reads
(`df["ebitda"].iloc[-1]`). -/
structure ProjRow where
  year : Int
  fcf : ℚ
  ebitda : Option ℚ
deriving DecidableEq

/-- Stable insertion of a row into a year-sorted list (ascending). -/
def sortInsertProj (a : ProjRow) : List ProjRow → List ProjRow
  | [] => [a]
  | b :: bs => if a.year ≤ b.year then a :: b :: bs else b :: sortInsertProj a bs

/-- Model of `df_proj.copy().sort_values("year")`: stable ascending sort by year. -/
def sortByYear : List ProjRow → List ProjRow
  | [] => []
  | a :: rest => sortInsertProj a (sortByYear rest)

/-- The result dictionary of `dcf_valuation`. -/
structure DcfResult where
  pv_cashflows : ℚ
  terminal_value : ℚ
  pv_terminal_value : ℚ
  enterprise_value : ℚ
  equity_value : ℚ
  per_share : Option ℚ
  wacc_used : ℚ
  terminal_method : String
deriving DecidableEq

/-- Model of `per_share = equity_value / shares_outstanding if shares_outstanding` —
Python truthiness: `None` and `0` both leave `per_share = None`. -/
def per_share_calc (shares_outstanding : Option ℚ) (equity_value : ℚ) : Option ℚ :=
  match shares_outstanding with
  | some s => if s = 0 then none else some (equity_value / s)
  | none => none

/-- Tail of `dcf_valuation` once `pv_cashflows` and the terminal value `tv`
are known: discount the terminal value over `n` periods, assemble enterprise
and equity value and the result dictionary. -/
def dcf_finish (pv_cashflows tv wacc : ℚ) (n : Nat) (last_reported_net_debt : ℚ)
    (shares_outstanding : Option ℚ) (terminal_method : String) : DcfResult :=
  let tv_discount := tv / (1 + wacc) ^ n
  let enterprise_value := pv_cashflows + tv_discount
  let equity_value := enterprise_value - last_reported_net_debt
  { pv_cashflows := pv_cashflows
    terminal_value := tv
    pv_terminal_value := tv_discount
    enterprise_value := enterprise_value
    equity_value := equity_value
    per_share := per_share_calc shares_outstanding equity_value
    wacc_used := wacc
    terminal_method := terminal_method }

/-- Model of `dcf_valuation(df_proj, wacc, terminal_method, terminal_growth,
exit_multiple, last_reported_net_debt, shares_outstanding)`.

Faithful to the source: the table is sorted by year; each cash flow `i`
(1-based) is discounted by `(1+wacc)^i` (a division that raises
`ZeroDivisionError` when `wacc = -1`); an empty table raises `IndexError` at
`fcfs[-1]`; under `"gordon"` the terminal value is
`final_fcf*(1+terminal_growth)/(wacc-terminal_growth)` (raising
`ZeroDivisionError` when the denominator is zero — there is no explicit
degenerate-case check in the source); *any other* method string takes the
exit-multiple branch, using the last row's `ebitda` when that column exists
and the estimate `final_fcf / 0.7` otherwise. -/
def dcf_valuation (df_proj : List ProjRow) (wacc : ℚ) (terminal_method : String)
    (terminal_growth : ℚ) (exit_multiple : ℚ) (last_reported_net_debt : ℚ)
    (shares_outstanding : Option ℚ) : Except String DcfResult :=
  let df := sortByYear df_proj
  let fcfs := df.map (fun r => r.fcf)
  match df.getLast? with
  | none => .error ("IndexError: index -1 is out of bounds")
  | some lastRow =>
    if 1 + wacc = 0 then .error ("ZeroDivisionError: float division by zero")
    else
      let discounted := (List.range fcfs.length).map
        (fun i => fcfs.getD i 0 / (1 + wacc) ^ (i + 1))
      let pv_cashflows := discounted.sum
      let final_fcf := lastRow.fcf
      if terminal_method = "gordon" then
        if wacc - terminal_growth = 0 then
          .error ("ZeroDivisionError: float division by zero")
        else
          let tv := final_fcf * (1 + terminal_growth) / (wacc - terminal_growth)
          .ok (dcf_finish pv_cashflows tv wacc fcfs.length last_reported_net_debt
                shares_outstanding terminal_method)
      else
        let tv := match lastRow.ebitda with
          | some final_ebitda => final_ebitda * exit_multiple
          | none => final_fcf / (7/10) * exit_multiple
        .ok (dcf_finish pv_cashflows tv wacc fcfs.length last_reported_net_debt
              shares_outstanding terminal_method)

/-! ## WACC estimator (src/valuation/dcf_and_reporting.py, compute_wacc) -/

/-- The result dictionary of `compute_wacc`.  The `assumptions` audit trail is
the insertion-ordered dict of defaulted/overridden fields. -/
structure WaccResult where
  beta : ℚ
  risk_free_rate : ℚ
  market_premium : ℚ
  cost_of_equity : ℚ
  cost_of_debt : ℚ
  tax_rate : ℚ
  equity_weight : ℚ
  debt_weight : ℚ
  wacc : ℚ
  assumptions : List (String × String)
deriving DecidableEq

/-- Beta resolution in `compute_wacc`: the yahooquery lookup result
`beta_fetched` is replaced by `beta_override` when that is supplied, and
defaults to `1.0` when both are unavailable. -/
def wacc_beta (beta_fetched beta_override : Option ℚ) : ℚ :=
  match beta_override with
  | some b => b
  | none =>
    match beta_fetched with
    | some b => b
    | none => 1

/-- Cost of debt in `compute_wacc`: `interest_expense / debt_value` when the
interest expense is supplied and `debt_value` is truthy and positive
(`debt_value and debt_value > 0`), else the 5% default. -/
def wacc_cod (interest_expense debt_value : Option ℚ) : ℚ :=
  match interest_expense, debt_value with
  | some ie, some d => if 0 < d then ie / d else 1/20
  | _, _ => 1/20

/-- Capital weights in `compute_wacc`: the 40/60 default when neither equity
nor debt value is supplied; otherwise a missing equity value defaults to 1.0
and a missing debt value to 0.0, with the total floored at `1e-9`. -/
def wacc_weights (equity_value debt_value : Option ℚ) : ℚ × ℚ :=
  match equity_value, debt_value with
  | none, none => (2/5, 3/5)
  | e?, d? =>
    let e := e?.getD 1
    let d := d?.getD 0
    let total := max (e + d) (1/1000000000)
    (e / total, d / total)

/-- The assumptions dict of `compute_wacc`, in source insertion order
(risk-free, premium, tax, beta, cost of debt, capital structure). -/
def wacc_assumptions (beta_fetched equity_value debt_value tax_rate risk_free_rate
    market_premium beta_override interest_expense : Option ℚ) : List (String × String) :=
  (if risk_free_rate.isNone then [("risk_free_rate", "estimé")] else []) ++
  (if market_premium.isNone then [("market_premium", "estimé")] else []) ++
  (if tax_rate.isNone then [("tax_rate", "estimé")] else []) ++
  (match beta_override, beta_fetched with
    | some _, _ => [("beta", "override")]
    | none, none => [("beta", "estimé")]
    | none, some _ => []) ++
  (match interest_expense, debt_value with
    | some _, some d =>
      if 0 < d then [("cost_of_debt", "calculé sur intérêts/dette")]
      else [("cost_of_debt", "estimé")]
    | _, _ => [("cost_of_debt", "estimé")]) ++
  (match equity_value, debt_value with
    | none, none => [("capital_structure", "estimée (40/60)")]
    | _, _ => [])

/-- The dictionary `compute_wacc` returns on its normal path. -/
def compute_wacc_result (beta_fetched equity_value debt_value tax_rate risk_free_rate
    market_premium beta_override interest_expense : Option ℚ) : WaccResult :=
  let rf := risk_free_rate.getD (7/200)
  let mp := market_premium.getD (3/50)
  let tax := tax_rate.getD (21/100)
  let beta := wacc_beta beta_fetched beta_override
  let cost_of_equity := rf + beta * mp
  let cost_of_debt := wacc_cod interest_expense debt_value
  let w := wacc_weights equity_value debt_value
  { beta := beta
    risk_free_rate := rf
    market_premium := mp
    cost_of_equity := cost_of_equity
    cost_of_debt := cost_of_debt
    tax_rate := tax
    equity_weight := w.1
    debt_weight := w.2
    wacc := cost_of_equity * w.1 + cost_of_debt * (1 - tax) * w.2
    assumptions := wacc_assumptions beta_fetched equity_value debt_value tax_rate
      risk_free_rate market_premium beta_override interest_expense }

/-- Model of `compute_wacc(ticker, equity_value, debt_value, tax_rate, risk_free_rate,
market_premium, beta_override, interest_expense, target_debt_ratio)`.

The yahooquery beta lookup is modelled by the explicit `beta_fetched`
argument (`none` models a failed lookup, swallowed by the source's
`try/except`).  When a computed capital weight is negative the source
executes `warnings.warn(...)`, but the module never imports `warnings`, so
that line raises `NameError` instead of warning — modelled as an error. -/
def compute_wacc (_ticker : String) (beta_fetched : Option ℚ)
    (equity_value debt_value tax_rate risk_free_rate market_premium beta_override
      interest_expense : Option ℚ) (_target_debt_ratio : Option ℚ) :
    Except String WaccResult :=
  let r := compute_wacc_result beta_fetched equity_value debt_value tax_rate
    risk_free_rate market_premium beta_override interest_expense
  if r.equity_weight < 0 ∨ r.debt_weight < 0 then
    .error ("NameError: name 'warnings' is not defined")
  else
    .ok r

/-! ## Full-cash-sweep LBO (src/valuation/lbo.py, lbo_model) -/

/-- One simulated year of `lbo_model`'s tracking columns. -/
structure LboYear where
  year : Int
  fcf : ℚ
  debt_begin : ℚ
  interest : ℚ
  debt_repayment : ℚ
  debt_end : ℚ
  cash : ℚ
  equity_begin : ℚ
  equity_end : ℚ
deriving DecidableEq

/-- The annual simulation loop of `lbo_model` (full-cash-sweep policy):
interest on beginning debt, repayment =
`min(max(fcf - interest, 0), debt_begin)`, cash to equity =
`max(fcf - interest - repayment, 0)`, with next year's beginning debt and
equity chained from this year's ending values. -/
def lbo_sim_years : List (Int × ℚ) → ℚ → ℚ → ℚ → List LboYear
  | [], _, _, _ => []
  | (y, f) :: rest, debt, equity, rate =>
    let interest := debt * rate
    let repayment_avail := max (f - interest) 0
    let debt_repayment := min repayment_avail debt
    let debt_end := debt - debt_repayment
    let net_to_equity := max (f - interest - debt_repayment) 0
    { year := y, fcf := f, debt_begin := debt, interest := interest
      debt_repayment := debt_repayment, debt_end := debt_end
      cash := net_to_equity, equity_begin := equity
      equity_end := equity + net_to_equity } ::
      lbo_sim_years rest debt_end (equity + net_to_equity) rate

/-- Stable insertion into a year-sorted list of `(year, fcf)` pairs. -/
def sortInsertPair (a : Int × ℚ) : List (Int × ℚ) → List (Int × ℚ)
  | [] => [a]
  | b :: bs => if a.1 ≤ b.1 then a :: b :: bs else b :: sortInsertPair a bs

/-- Model of `df_proj.copy().sort_values("year")` inside `lbo_model`. -/
def sortPairsByYear : List (Int × ℚ) → List (Int × ℚ)
  | [] => []
  | a :: rest => sortInsertPair a (sortPairsByYear rest)

/-- The year-by-year debt/equity schedule built by `lbo_model`
(src/valuation/lbo.py lines 48–73): the projection is sorted by year, year 0
starts from `debt_contrib`/`equity_contrib`, and each row is one pass of the
simulation loop.  The exit-value and IRR post-processing of `lbo_model` is
not needed by the claims about the schedule. -/
def lbo_model_schedule (df_proj : List (Int × ℚ)) (debt_contrib equity_contrib
    interest_rate : ℚ) : List LboYear :=
  lbo_sim_years (sortPairsByYear df_proj) debt_contrib equity_contrib interest_rate

/-! ## Fractional-repayment LBO
(src/financial_analysis/financials_fmp.py, calculate_equity_fcf and
simulate_lbo_cashflows) -/

/-- The loop body shared verbatim by `calculate_equity_fcf` and
`simulate_lbo_cashflows`: interest on the running debt, repayment =
`min(debt, (fcf - interest) * repayment_rate)` (note: *not* floored at zero),
new debt = `debt - repayment`, equity cash flow =
`max(fcf - interest - repayment, 0)`.  Returns
`(new debt balance, equity cash flow)`. -/
def fractional_sweep_step (interest_rate repayment_rate debt fcf : ℚ) : ℚ × ℚ :=
  let interest := debt * interest_rate
  let fcf_after_interest := fcf - interest
  let repayment := min debt (fcf_after_interest * repayment_rate)
  let debt' := debt - repayment
  let equity_cf := max (fcf_after_interest - repayment) 0
  (debt', equity_cf)

/-- Model of `calculate_equity_fcf(df_operating_fcf, initial_debt, interest_rate,
repayment_rate)`: the per-year `(debt_balance, fcf_equity)` columns, one pair
per row of the operating-FCF table (only its `fcf_operating` column is read). -/
def calculate_equity_fcf (fcf_operating : List ℚ) (initial_debt interest_rate
    repayment_rate : ℚ) : List (ℚ × ℚ) :=
  match fcf_operating with
  | [] => []
  | f :: rest =>
    let s := fractional_sweep_step interest_rate repayment_rate initial_debt f
    s :: calculate_equity_fcf rest s.1 interest_rate repayment_rate

/-- Model of `simulate_lbo_cashflows(df_lbo_ready, initial_debt, interest_rate,
repayment_rate)`: identical loop over the `fcf` column, producing the
`(debt_balance, equity_cashflow)` columns. -/
def simulate_lbo_cashflows (fcf : List ℚ) (initial_debt interest_rate
    repayment_rate : ℚ) : List (ℚ × ℚ) :=
  match fcf with
  | [] => []
  | f :: rest =>
    let s := fractional_sweep_step interest_rate repayment_rate initial_debt f
    s :: simulate_lbo_cashflows rest s.1 interest_rate repayment_rate

/-- The per-year equations of the full-cash-sweep policy as the specification
states them: interest on beginning debt, available cash floored at zero,
repayment capped by the beginning balance, ending debt by subtraction, equity
cash flow the floored remainder, plus the resulting debt-sign invariants. -/
def lbo_year_full_sweep_ok (interest_rate : ℚ) (y : LboYear) : Prop :=
  y.interest = y.debt_begin * interest_rate ∧
  y.debt_repayment = min (max (y.fcf - y.interest) 0) y.debt_begin ∧
  y.debt_end = y.debt_begin - y.debt_repayment ∧
  y.cash = max (max (y.fcf - y.interest) 0 - y.debt_repayment) 0 ∧
  y.equity_end = y.equity_begin + y.cash ∧
  0 ≤ y.debt_begin ∧ 0 ≤ y.debt_end

/-! ## Projector (src/financial_analysis/financials_fmp.py, project_financials) -/

/-- One historical row as read by `project_financials`: the reporting date
(modelled by its calendar year), revenue and the margin columns added by the
Ratio Engine.  The optional `capex` models presence or absence of the `capex`
column at the one cell the source reads (`df["capex"].iloc[0]`). -/
structure FinRow where
  date : Int
  totalrevenue : ℚ
  ebitda_margin : ℚ
  ebit_margin : ℚ
  capex : Option ℚ
deriving DecidableEq

/-- Stable insertion into a date-sorted list (descending). -/
def sortInsertFin (a : FinRow) : List FinRow → List FinRow
  | [] => [a]
  | b :: bs => if b.date ≤ a.date then a :: b :: bs else b :: sortInsertFin a bs

/-- Model of `df.sort_values("date", ascending=False)`. -/
def sortByDateDesc : List FinRow → List FinRow
  | [] => []
  | a :: rest => sortInsertFin a (sortByDateDesc rest)

/-- One projected row of `project_financials` (the dict keys appended each
iteration). -/
structure ProjFinRow where
  year : Int
  revenue : ℚ
  ebitda : ℚ
  ebit : ℚ
  capex : ℚ
  fcf : ℚ
deriving DecidableEq

/-- The projection loop of `project_financials`: `n` remaining years, `i` the
1-based index of the next projected year.  Revenue compounds by `(1 +
revenue_growth)` each pass; `revenue_prev` (the second-to-last historical
revenue) is *not* updated inside the loop, faithful to the source. -/
def projFinRows (n : Nat) (i : Nat) (year0 : Int) (revenue revenue_growth
    ebitda_margin ebit_margin : ℚ) (capex_hist : Option ℚ) (revenue_prev : ℚ) :
    List ProjFinRow :=
  match n with
  | 0 => []
  | m + 1 =>
    let revenue' := revenue * (1 + revenue_growth)
    let ebitda := revenue' * ebitda_margin
    let ebit := revenue' * ebit_margin
    let capex := match capex_hist with
      | some c => c
      | none => revenue' * (1/20)
    let nopat := ebit * (1 - 21/100)
    let working_capital_change := (1/10) * (revenue' - revenue_prev)
    let fcf := nopat - capex - working_capital_change
    { year := year0 + Int.ofNat i, revenue := revenue', ebitda := ebitda
      ebit := ebit, capex := capex, fcf := fcf } ::
      projFinRows m (i + 1) year0 revenue' revenue_growth ebitda_margin
        ebit_margin capex_hist revenue_prev

/-- Model of `project_financials(df, years, revenue_growth)`: sorts the historical
table by date descending, reads the last and second-to-last rows (fewer than
two rows raises `IndexError`, modelled as `none`), and compounds revenue from
the last historical value, holding margins constant.  `capex` comes from the
first row of the *unsorted* frame when the column exists, else the 5%%-of-
revenue estimate. -/
def project_financials (df : List FinRow) (years : Nat) (revenue_growth : ℚ) :
    Option (List ProjFinRow) :=
  match sortByDateDesc df with
  | last_row :: second_last_row :: _ =>
    let capex_hist : Option ℚ := (df.head?).bind (fun r => r.capex)
    some (projFinRows years 1 last_row.date last_row.totalrevenue revenue_growth
      last_row.ebitda_margin last_row.ebit_margin capex_hist
      second_last_row.totalrevenue)
  | _ => none

/-! ## Ratio Engine (src/financial_analysis/financials_fmp.py,
calculate_profitability_ratios and calculate_leverage_ratios)

A pandas DataFrame is modelled as a column-name list plus rows of optional
cells aligned with it (`none` models NaN / pd.NA, and also the non-finite
result of a zero-denominator division, which `calculate_leverage_ratios`
anyway replaces by pd.NA).  The source mutates the caller's frame in place
(`inplace=True` drops and direct column assignment) and returns the same
object, so the returned `Frame` is the post-call state of the caller's
argument. -/

structure Frame where
  cols : List String
  rows : List (List (Option ℚ))
deriving DecidableEq

/-- Index of a column name in a column list. -/
def colIdx : List String → String → Option Nat
  | [], _ => none
  | c :: cs, name => if c = name then some 0 else (colIdx cs name).map (· + 1)

/-- The cell of one row at a column position. -/
def cellAt (row : List (Option ℚ)) (i : Nat) : Option ℚ :=
  (row.getD i none)

/-- The column of values named `name` (all-missing when absent). -/
def getCol (f : Frame) (name : String) : List (Option ℚ) :=
  match colIdx f.cols name with
  | some i => f.rows.map (fun r => cellAt r i)
  | none => f.rows.map (fun _ => none)

/-- Model of `df[name] = vals`: overwrite an existing column in place, or append a new
column at the end. -/
def setCol (f : Frame) (name : String) (vals : List (Option ℚ)) : Frame :=
  match colIdx f.cols name with
  | some i => { cols := f.cols, rows := f.rows.zipWith (fun r v => r.set i v) vals }
  | none => { cols := f.cols ++ [name], rows := f.rows.zipWith (fun r v => r ++ [v]) vals }

/-- Model of `df.dropna(how="all", inplace=True)`: drop rows with no present cell. -/
def dropnaAll (f : Frame) : Frame :=
  { cols := f.cols, rows := f.rows.filter (fun r => r.any (fun c => c.isSome)) }

/-- Cell-wise division; a missing operand or a zero denominator (whose float
result is non-finite) yields a missing cell. -/
def cellDiv (a b : Option ℚ) : Option ℚ :=
  match a, b with
  | some x, some y => if y = 0 then none else some (x / y)
  | _, _ => none

/-- Cell-wise subtraction (missing propagates, as NaN does). -/
def cellSub (a b : Option ℚ) : Option ℚ :=
  match a, b with
  | some x, some y => some (x - y)
  | _, _ => none

/-- Cell-wise product with a scalar factor `1 - t` (for NOPAT). -/
def cellMul (a b : Option ℚ) : Option ℚ :=
  match a, b with
  | some x, some y => some (x * y)
  | _, _ => none

/-- Column-wise binary operation. -/
def colZip (op : Option ℚ → Option ℚ → Option ℚ) (xs ys : List (Option ℚ)) :
    List (Option ℚ) :=
  List.zipWith op xs ys

/-- Model of `calculate_profitability_ratios(df)`: drops all-missing rows in place,
fails with `ValueError` when a base column is absent, then writes the margin
columns (and conditionally roe / roa / nopat+roic) into the caller's frame
and returns that same frame. -/
def calculate_profitability_ratios (df : Frame) : Except String Frame :=
  let f0 := dropnaAll df
  let required := ["totalrevenue", "ebitda", "ebit", "netincome"]
  if required.all (fun c => f0.cols.contains c) then
    let f1 := setCol f0 "ebitda_margin" (colZip cellDiv (getCol f0 "ebitda") (getCol f0 "totalrevenue"))
    let f2 := setCol f1 "ebit_margin" (colZip cellDiv (getCol f1 "ebit") (getCol f1 "totalrevenue"))
    let f3 := setCol f2 "net_income_margin" (colZip cellDiv (getCol f2 "netincome") (getCol f2 "totalrevenue"))
    let f4 := if f3.cols.contains "stockholdersequity" then
        setCol f3 "roe" (colZip cellDiv (getCol f3 "netincome") (getCol f3 "stockholdersequity"))
      else f3
    let f5 := if f4.cols.contains "totalassets" then
        setCol f4 "roa" (colZip cellDiv (getCol f4 "netincome") (getCol f4 "totalassets"))
      else f4
    let f6 := if f5.cols.contains "operatingincome" && f5.cols.contains "taxrateforcalcs"
        && f5.cols.contains "investedcapital" then
        let f5a := setCol f5 "nopat" (colZip cellMul (getCol f5 "operatingincome")
          ((getCol f5 "taxrateforcalcs").map (fun t => t.map (fun x => 1 - x))))
        setCol f5a "roic" (colZip cellDiv (getCol f5a "nopat") (getCol f5a "investedcapital"))
      else f5
    .ok f6
  else
    .error ("ValueError: Colonnes manquantes pour les ratios de base")

/-- Model of `ebit / abs(interestexpense) if interestexpense != 0 else pd.NA`. -/
def cellCoverage (ebit ie : Option ℚ) : Option ℚ :=
  match ie with
  | some y => if y = 0 then none else (ebit.map (fun x => x / |y|))
  | none => none

/-- Model of `calculate_leverage_ratios(df)`: fails with `ValueError` when one of the
eight required columns is absent, then writes the leverage and liquidity
ratio columns into the caller's frame, replaces non-finite cells by missing,
drops all-missing rows in place and returns the same frame. -/
def calculate_leverage_ratios (df : Frame) : Except String Frame :=
  let required := ["totaldebt", "stockholdersequity", "ebitda", "ebit",
    "interestexpense", "currentassets", "inventory", "currentliabilities"]
  if required.all (fun c => df.cols.contains c) then
    let f1 := setCol df "debt_to_equity" (colZip cellDiv (getCol df "totaldebt") (getCol df "stockholdersequity"))
    let f2 := setCol f1 "debt_to_ebitda" (colZip cellDiv (getCol f1 "totaldebt") (getCol f1 "ebitda"))
    let f3 := setCol f2 "interest_coverage_ratio" (colZip cellCoverage (getCol f2 "ebit") (getCol f2 "interestexpense"))
    let f4 := setCol f3 "current_ratio" (colZip cellDiv (getCol f3 "currentassets") (getCol f3 "currentliabilities"))
    let f5 := setCol f4 "quick_ratio" (colZip cellDiv
      (colZip cellSub (getCol f4 "currentassets") (getCol f4 "inventory"))
      (getCol f4 "currentliabilities"))
    .ok (dropnaAll f5)
  else
    .error ("ValueError: colonne manquante pour calculer les ratios de levier")

/-! ## Helper lemmas -/

theorem list_range_map_sum (n : ℕ) (f : ℕ → ℚ) :
    ((List.range n).map f).sum = ∑ i ∈ Finset.range n, f i := by
  induction n with
  | zero => simp
  | succ m ih =>
    rw [List.range_succ, List.map_append, List.sum_append, Finset.sum_range_succ, ih]
    simp

theorem map_fcf_getD (s : List ProjRow) (i : ℕ) (h : i < s.length) :
    (s.map (fun r => r.fcf)).getD i 0 = (s.getD i ⟨0, 0, none⟩).fcf := by
  induction s generalizing i with
  | nil => simp at h
  | cons a t ih =>
    cases i with
    | zero => rfl
    | succ j =>
      simp only [List.map_cons, List.getD_cons_succ]
      exact ih j (by simpa using h)

/-! ## C1: DCF decomposition identity -/

/-- C1: for every projection table with columns `year` and `fcf`, every
discount rate and every terminal-value configuration, the dictionary returned
by `dcf_valuation` satisfies `enterprise_value = pv_cashflows +
pv_terminal_value` exactly and `equity_value = enterprise_value -
last_reported_net_debt`, with `pv_cashflows = Σ_{i=1..N} FCFF_i/(1+wacc)^i`
(the first projected year discounted one full period, in year-sorted order)
and `pv_terminal_value = terminal_value/(1+wacc)^N`. -/
theorem C1_dcf_decomposition (df_proj : List ProjRow)
    (wacc terminal_growth exit_multiple last_reported_net_debt : ℚ)
    (terminal_method : String) (shares_outstanding : Option ℚ) (r : DcfResult)
    (h : dcf_valuation df_proj wacc terminal_method terminal_growth exit_multiple
      last_reported_net_debt shares_outstanding = .ok r) :
    r.enterprise_value = r.pv_cashflows + r.pv_terminal_value ∧
    r.equity_value = r.enterprise_value - last_reported_net_debt ∧
    r.pv_cashflows = ∑ i ∈ Finset.range (sortByYear df_proj).length,
      ((sortByYear df_proj).getD i ⟨0, 0, none⟩).fcf / (1 + wacc) ^ (i + 1) ∧
    r.pv_terminal_value = r.terminal_value / (1 + wacc) ^ (sortByYear df_proj).length := by
  simp only [dcf_valuation] at h
  split at h
  · exact absurd h (by simp)
  · split at h
    · exact absurd h (by simp)
    · split at h
      · split at h
        · exact absurd h (by simp)
        · rw [Except.ok.injEq] at h
          subst h
          refine ⟨rfl, rfl, ?_, ?_⟩
          · show ((List.range _).map _).sum = _
            rw [list_range_map_sum, List.length_map]
            exact Finset.sum_congr rfl (fun i hi =>
              congrArg (· / (1 + wacc) ^ (i + 1))
                (map_fcf_getD _ i (Finset.mem_range.mp hi)))
          · show _ / _ ^ (List.map _ _).length = _
            rw [List.length_map]
            rfl
      · rw [Except.ok.injEq] at h
        subst h
        refine ⟨rfl, rfl, ?_, ?_⟩
        · show ((List.range _).map _).sum = _
          rw [list_range_map_sum, List.length_map]
          exact Finset.sum_congr rfl (fun i hi =>
            congrArg (· / (1 + wacc) ^ (i + 1))
              (map_fcf_getD _ i (Finset.mem_range.mp hi)))
        · show _ / _ ^ (List.map _ _).length = _
          rw [List.length_map]
          rfl

theorem sortInsertProj_length (a : ProjRow) (l : List ProjRow) :
    (sortInsertProj a l).length = l.length + 1 := by
  induction l with
  | nil => rfl
  | cons b bs ih =>
    simp only [sortInsertProj]
    split
    · rfl
    · simp [ih]

theorem sortByYear_length (l : List ProjRow) : (sortByYear l).length = l.length := by
  induction l with
  | nil => rfl
  | cons a rest ih => simp [sortByYear, sortInsertProj_length, ih]

theorem sortByYear_ne_nil (l : List ProjRow) (h : l ≠ []) : sortByYear l ≠ [] := by
  intro hnil
  apply h
  apply List.length_eq_zero.mp
  rw [← sortByYear_length l, hnil]
  rfl

/-- C1 witness: the decomposition identity evaluated on a concrete one-year
projection (fcf 110, wacc 10%, gordon growth 2%, net debt 75, 13 shares). -/
theorem C1_dcf_decomposition_witness :
    dcf_valuation [⟨2025, 110, none⟩] (1/10) "gordon" (1/50) 10 75 (some 13) =
      .ok ⟨100, 2805/2, 1275, 1375, 1300, some 100, 1/10, "gordon"⟩ ∧
    ((⟨100, 2805/2, 1275, 1375, 1300, some 100, 1/10, "gordon"⟩ : DcfResult).enterprise_value =
        (⟨100, 2805/2, 1275, 1375, 1300, some 100, 1/10, "gordon"⟩ : DcfResult).pv_cashflows +
        (⟨100, 2805/2, 1275, 1375, 1300, some 100, 1/10, "gordon"⟩ : DcfResult).pv_terminal_value ∧
      (⟨100, 2805/2, 1275, 1375, 1300, some 100, 1/10, "gordon"⟩ : DcfResult).equity_value =
        (⟨100, 2805/2, 1275, 1375, 1300, some 100, 1/10, "gordon"⟩ : DcfResult).enterprise_value - 75 ∧
      (⟨100, 2805/2, 1275, 1375, 1300, some 100, 1/10, "gordon"⟩ : DcfResult).pv_cashflows =
        ∑ i ∈ Finset.range (sortByYear [⟨2025, 110, none⟩]).length,
          ((sortByYear [⟨2025, 110, none⟩]).getD i ⟨0, 0, none⟩).fcf / (1 + 1/10) ^ (i + 1) ∧
      (⟨100, 2805/2, 1275, 1375, 1300, some 100, 1/10, "gordon"⟩ : DcfResult).pv_terminal_value =
        (⟨100, 2805/2, 1275, 1375, 1300, some 100, 1/10, "gordon"⟩ : DcfResult).terminal_value /
          (1 + 1/10) ^ (sortByYear [⟨2025, 110, none⟩]).length) :=
  ⟨by norm_num [dcf_valuation, sortByYear, sortInsertProj, dcf_finish, per_share_calc, List.range_succ],
   C1_dcf_decomposition [⟨2025, 110, none⟩] (1/10) (1/50) 10 75 "gordon"
    (some 13) ⟨100, 2805/2, 1275, 1375, 1300, some 100, 1/10, "gordon"⟩
    (by norm_num [dcf_valuation, sortByYear, sortInsertProj, dcf_finish, per_share_calc, List.range_succ])⟩

/-! ## C2: gordon degenerate condition -/

/-- C2 counterexample: with wacc 2% strictly below terminal growth 3%,
`dcf_valuation` silently returns a finite terminal value — exactly
`final FCFF × (1+g)/(wacc−g) = -10300` — with no error, warning or
undefined marker. -/
theorem C2_gordon_silent_value_counterexample :
    dcf_valuation [⟨2025, 100, none⟩] (1/50) "gordon" (3/100) 10 0 none =
      .ok ⟨5000/51, -10300, -515000/51, -10000, -10000, none, 1/50, "gordon"⟩ ∧
    (-10300 : ℚ) = 100 * (1 + 3/100) / (1/50 - 3/100) :=
  ⟨by norm_num [dcf_valuation, sortByYear, sortInsertProj, dcf_finish, per_share_calc, List.range_succ], by norm_num⟩

/-- C2 amended: only the boundary case `wacc = terminal_growth` is reported
(as an uncaught `ZeroDivisionError`); for `wacc ≠ terminal_growth` —
including every `wacc < terminal_growth` — `dcf_valuation` silently returns
the finite terminal value `final FCFF × (1+g)/(wacc−g)`. -/
theorem C2_gordon_degenerate_amended (df_proj : List ProjRow)
    (wacc terminal_growth exit_multiple last_reported_net_debt : ℚ)
    (shares_outstanding : Option ℚ) (h1 : df_proj ≠ []) (h2 : 1 + wacc ≠ 0) :
    (wacc = terminal_growth →
      dcf_valuation df_proj wacc "gordon" terminal_growth exit_multiple
          last_reported_net_debt shares_outstanding =
        .error ("ZeroDivisionError: float division by zero")) ∧
    (wacc ≠ terminal_growth → ∃ r,
      dcf_valuation df_proj wacc "gordon" terminal_growth exit_multiple
          last_reported_net_debt shares_outstanding = .ok r ∧
      some r.terminal_value = (sortByYear df_proj).getLast?.map
        (fun row => row.fcf * (1 + terminal_growth) / (wacc - terminal_growth))) := by
  obtain ⟨lastRow, hL⟩ :=
    Option.isSome_iff_exists.mp (List.getLast?_isSome.mpr (sortByYear_ne_nil df_proj h1))
  constructor
  · intro he
    simp only [dcf_valuation, hL]
    rw [if_neg h2]
    simp only [if_true]
    rw [if_pos (by rw [he, sub_self])]
  · intro hne
    have hsub : wacc - terminal_growth ≠ 0 := sub_ne_zero.mpr hne
    simp only [dcf_valuation, hL]
    rw [if_neg h2]
    simp only [if_true]
    rw [if_neg hsub]
    exact ⟨_, rfl, rfl⟩

/-- C2 witness: the amended statement at the concrete degenerate input
(fcf 100, wacc 2%, growth 3%). -/
theorem C2_gordon_degenerate_amended_witness :
    ([(⟨2025, 100, none⟩ : ProjRow)] ≠ []) ∧ ((1 : ℚ) + 1/50 ≠ 0) ∧
    (((1/50 : ℚ) = 3/100 →
      dcf_valuation [⟨2025, 100, none⟩] (1/50) "gordon" (3/100) 10 0 none =
        .error ("ZeroDivisionError: float division by zero")) ∧
    ((1/50 : ℚ) ≠ 3/100 → ∃ r,
      dcf_valuation [⟨2025, 100, none⟩] (1/50) "gordon" (3/100) 10 0 none = .ok r ∧
      some r.terminal_value = (sortByYear [⟨2025, 100, none⟩]).getLast?.map
        (fun row => row.fcf * (1 + 3/100) / (1/50 - 3/100)))) :=
  ⟨by simp, by norm_num,
    C2_gordon_degenerate_amended [⟨2025, 100, none⟩] (1/50) (3/100) 10 0 none
      (by simp) (by norm_num)⟩

/-! ## C7: unknown terminal method -/

/-- C7 counterexample: `terminal_method = "bogus"` is neither `"gordon"` nor
`"exit_multiple"`, yet `dcf_valuation` raises nothing and happily values the
firm through the exit-multiple branch. -/
theorem C7_unknown_method_counterexample :
    dcf_valuation [⟨2025, 70, none⟩] (1/10) "bogus" (1/50) 10 0 none =
      .ok ⟨700/11, 1000, 10000/11, 10700/11, 10700/11, none, 1/10, "bogus"⟩ := by
  norm_num [dcf_valuation, sortByYear, sortInsertProj, dcf_finish, per_share_calc,
    List.range_succ]
  decide

/-- C7 amended: every terminal-method string other than `"gordon"` (valid or
not) is treated as the exit-multiple method; no `InvalidParameter`-style
error is ever raised for the method argument. -/
theorem C7_unknown_method_amended (df_proj : List ProjRow)
    (wacc terminal_growth exit_multiple last_reported_net_debt : ℚ)
    (terminal_method : String) (shares_outstanding : Option ℚ)
    (hm : terminal_method ≠ "gordon") (h1 : df_proj ≠ []) (h2 : 1 + wacc ≠ 0) :
    ∃ r, dcf_valuation df_proj wacc terminal_method terminal_growth exit_multiple
        last_reported_net_debt shares_outstanding = .ok r ∧
      some r.terminal_value = (sortByYear df_proj).getLast?.map
        (fun row => match row.ebitda with
          | some final_ebitda => final_ebitda * exit_multiple
          | none => row.fcf / (7/10) * exit_multiple) := by
  obtain ⟨lastRow, hL⟩ :=
    Option.isSome_iff_exists.mp (List.getLast?_isSome.mpr (sortByYear_ne_nil df_proj h1))
  simp only [dcf_valuation, hL]
  rw [if_neg h2, if_neg hm]
  exact ⟨_, rfl, rfl⟩

/-- C7 witness: the amended statement at the concrete input with method
string "bogus". -/
theorem C7_unknown_method_amended_witness :
    ("bogus" ≠ "gordon") ∧ ([(⟨2025, 70, none⟩ : ProjRow)] ≠ []) ∧ ((1 : ℚ) + 1/10 ≠ 0) ∧
    (∃ r, dcf_valuation [⟨2025, 70, none⟩] (1/10) "bogus" (1/50) 10 0 none = .ok r ∧
      some r.terminal_value = (sortByYear [⟨2025, 70, none⟩]).getLast?.map
        (fun row => match row.ebitda with
          | some final_ebitda => final_ebitda * 10
          | none => row.fcf / (7/10) * 10)) :=
  ⟨by decide, by simp, by norm_num,
    C7_unknown_method_amended [⟨2025, 70, none⟩] (1/10) (1/50) 10 0 "bogus" none
      (by decide) (by simp) (by norm_num)⟩

/-! ## C10: zero or missing shares outstanding -/

/-- C10: calling `dcf_valuation` with `shares_outstanding = 0` behaves
exactly as with `shares_outstanding = None` — Python truthiness skips the
per-share division, so no `ZeroDivisionError` can arise from it and the
returned `per_share` is `None`. -/
theorem C10_zero_shares_safe (df_proj : List ProjRow)
    (wacc terminal_growth exit_multiple last_reported_net_debt : ℚ)
    (terminal_method : String) :
    dcf_valuation df_proj wacc terminal_method terminal_growth exit_multiple
        last_reported_net_debt (some 0) =
      dcf_valuation df_proj wacc terminal_method terminal_growth exit_multiple
        last_reported_net_debt none ∧
    ∀ r, dcf_valuation df_proj wacc terminal_method terminal_growth exit_multiple
        last_reported_net_debt (some 0) = .ok r → r.per_share = none := by
  constructor
  · simp [dcf_valuation, dcf_finish, per_share_calc]
  · intro r h
    simp only [dcf_valuation] at h
    split at h
    · exact absurd h (by simp)
    · split at h
      · exact absurd h (by simp)
      · split at h
        · split at h
          · exact absurd h (by simp)
          · rw [Except.ok.injEq] at h
            subst h
            simp [dcf_finish, per_share_calc]
        · rw [Except.ok.injEq] at h
          subst h
          simp [dcf_finish, per_share_calc]

/-- C10 witness: the zero-shares behaviour at a concrete one-year
projection. -/
theorem C10_zero_shares_safe_witness :
    dcf_valuation [⟨2025, 110, none⟩] (1/10) "gordon" (1/50) 10 75 (some 0) =
      dcf_valuation [⟨2025, 110, none⟩] (1/10) "gordon" (1/50) 10 75 none ∧
    ∀ r, dcf_valuation [⟨2025, 110, none⟩] (1/10) "gordon" (1/50) 10 75 (some 0) =
      .ok r → r.per_share = none :=
  C10_zero_shares_safe [⟨2025, 110, none⟩] (1/10) (1/50) 10 75 "gordon"

/-! ## C4: full-cash-sweep LBO policy -/

theorem cash_sweep_eq (f interest d : ℚ) (hd : 0 ≤ d) :
    max (f - interest - min (max (f - interest) 0) d) 0 =
    max (max (f - interest) 0 - min (max (f - interest) 0) d) 0 := by
  rcases le_total (f - interest) 0 with h | h
  · rw [max_eq_right h, min_eq_left hd]
    simp [max_eq_right h]
  · rw [max_eq_left h]

theorem lbo_sim_years_full_sweep (rows : List (Int × ℚ)) (debt equity rate : ℚ)
    (hd : 0 ≤ debt) :
    (∀ y ∈ lbo_sim_years rows debt equity rate, lbo_year_full_sweep_ok rate y) ∧
    (∀ i (hi : i + 1 < (lbo_sim_years rows debt equity rate).length),
      ((lbo_sim_years rows debt equity rate).get ⟨i + 1, hi⟩).debt_begin =
        ((lbo_sim_years rows debt equity rate).get ⟨i, Nat.lt_of_succ_lt hi⟩).debt_end) := by
  induction rows generalizing debt equity with
  | nil => exact ⟨by intro y hy; simp [lbo_sim_years] at hy, by intro i hi; simp [lbo_sim_years] at hi⟩
  | cons p rest ih =>
    obtain ⟨y0, f⟩ := p
    have hend : 0 ≤ debt - min (max (f - debt * rate) 0) debt :=
      sub_nonneg.mpr (min_le_right _ _)
    constructor
    · intro z hz
      rw [show lbo_sim_years ((y0, f) :: rest) debt equity rate =
          { year := y0, fcf := f, debt_begin := debt, interest := debt * rate
            debt_repayment := min (max (f - debt * rate) 0) debt
            debt_end := debt - min (max (f - debt * rate) 0) debt
            cash := max (f - debt * rate - min (max (f - debt * rate) 0) debt) 0
            equity_begin := equity
            equity_end := equity + max (f - debt * rate - min (max (f - debt * rate) 0) debt) 0 } ::
          lbo_sim_years rest (debt - min (max (f - debt * rate) 0) debt)
            (equity + max (f - debt * rate - min (max (f - debt * rate) 0) debt) 0) rate
          from rfl] at hz
      rcases List.mem_cons.mp hz with h | h
      · subst h
        exact ⟨rfl, rfl, rfl, cash_sweep_eq f (debt * rate) debt hd, rfl, hd, hend⟩
      · exact (ih _ _ hend).1 z h
    · intro i hi
      match rest, i, hi with
      | [], 0, hi => simp [lbo_sim_years] at hi
      | (y1, f1) :: rest1, 0, hi => rfl
      | r1 :: rest1, i + 1, hi =>
        exact (ih _ _ hend).2 i (by simpa [lbo_sim_years] using hi)

/-- C4: under the full-cash-sweep policy of `lbo_model` (nonnegative initial
debt), every simulated year computes interest = beginning debt × rate,
available cash = max(FCFF − interest, 0), repayment = min(available cash,
beginning debt), ending debt = beginning debt − repayment, equity cash flow =
max(available cash − repayment, 0), chained year to year; and the concrete
scenario debt 1000, rate 8%, FCFF 200 yields interest 80, repayment 120,
ending debt 880 and zero equity cash flow. -/
theorem C4_lbo_model_full_sweep :
    (∀ (df_proj : List (Int × ℚ)) (debt_contrib equity_contrib interest_rate : ℚ),
      0 ≤ debt_contrib →
      (∀ y ∈ lbo_model_schedule df_proj debt_contrib equity_contrib interest_rate,
        lbo_year_full_sweep_ok interest_rate y) ∧
      (∀ i (hi : i + 1 <
          (lbo_model_schedule df_proj debt_contrib equity_contrib interest_rate).length),
        ((lbo_model_schedule df_proj debt_contrib equity_contrib interest_rate).get
            ⟨i + 1, hi⟩).debt_begin =
          ((lbo_model_schedule df_proj debt_contrib equity_contrib interest_rate).get
            ⟨i, Nat.lt_of_succ_lt hi⟩).debt_end)) ∧
    lbo_model_schedule [(1, 200)] 1000 0 (8/100) =
      [⟨1, 200, 1000, 80, 120, 880, 0, 0, 0⟩] := by
  constructor
  · intro df_proj debt_contrib equity_contrib interest_rate hd
    exact lbo_sim_years_full_sweep (sortPairsByYear df_proj) debt_contrib
      equity_contrib interest_rate hd
  · norm_num [lbo_model_schedule, sortPairsByYear, sortInsertPair, lbo_sim_years,
      max_def, min_def]

/-- C4 witness: the full-sweep equations instantiated on the concrete
scenario of the claim (initial debt 1000, rate 8%, one year of FCFF 200). -/
theorem C4_lbo_model_full_sweep_witness :
    (0 : ℚ) ≤ 1000 ∧
    ((∀ y ∈ lbo_model_schedule [(1, 200)] 1000 0 (8/100),
        lbo_year_full_sweep_ok (8/100) y) ∧
     (∀ i (hi : i + 1 < (lbo_model_schedule [(1, 200)] 1000 0 (8/100)).length),
        ((lbo_model_schedule [(1, 200)] 1000 0 (8/100)).get ⟨i + 1, hi⟩).debt_begin =
          ((lbo_model_schedule [(1, 200)] 1000 0 (8/100)).get
            ⟨i, Nat.lt_of_succ_lt hi⟩).debt_end)) :=
  ⟨by norm_num, C4_lbo_model_full_sweep.1 [(1, 200)] 1000 0 (8/100) (by norm_num)⟩

/-! ## C3: fractional-repayment LBO policy -/

/-- C3 counterexample: with zero operating cash flow, initial debt 100, rate
8% and repayment fraction 20%, the year-1 repayment is the *negative* amount
min(100, (0−8)×0.2) = −1.6, so the ending balance 101.6 exceeds the beginning
balance 100 in both `calculate_equity_fcf` and `simulate_lbo_cashflows`. -/
theorem C3_fractional_debt_increases_counterexample :
    calculate_equity_fcf [0] 100 (8/100) (1/5) = [(508/5, 0)] ∧
    simulate_lbo_cashflows [0] 100 (8/100) (1/5) = [(508/5, 0)] ∧
    (100 : ℚ) < 508/5 := by
  refine ⟨?_, ?_, by norm_num⟩ <;>
    norm_num [calculate_equity_fcf, simulate_lbo_cashflows, fractional_sweep_step,
      min_def, max_def]

theorem fractional_sweep_step_nonneg (interest_rate repayment_rate debt fcf : ℚ)
    (_hd : 0 ≤ debt) :
    0 ≤ (fractional_sweep_step interest_rate repayment_rate debt fcf).1 := by
  simp only [fractional_sweep_step]
  have h := min_le_left debt ((fcf - debt * interest_rate) * repayment_rate)
  linarith

theorem fractional_sweep_step_mono (interest_rate repayment_rate debt fcf : ℚ)
    (hd : 0 ≤ debt) (hs : 0 ≤ (fcf - debt * interest_rate) * repayment_rate) :
    (fractional_sweep_step interest_rate repayment_rate debt fcf).1 ≤ debt := by
  simp only [fractional_sweep_step]
  have h := le_min hd hs
  linarith

theorem calculate_equity_fcf_balances_nonneg (l : List ℚ) :
    ∀ (debt interest_rate repayment_rate : ℚ), 0 ≤ debt →
      ∀ p ∈ calculate_equity_fcf l debt interest_rate repayment_rate, 0 ≤ p.1 := by
  induction l with
  | nil => intro debt ir rr hd p hp; simp [calculate_equity_fcf] at hp
  | cons f rest ih =>
    intro debt ir rr hd p hp
    rw [show calculate_equity_fcf (f :: rest) debt ir rr =
        fractional_sweep_step ir rr debt f ::
          calculate_equity_fcf rest (fractional_sweep_step ir rr debt f).1 ir rr
        from rfl] at hp
    rcases List.mem_cons.mp hp with h | h
    · rw [h]; exact fractional_sweep_step_nonneg ir rr debt f hd
    · exact ih _ ir rr (fractional_sweep_step_nonneg ir rr debt f hd) p h

theorem simulate_lbo_cashflows_balances_nonneg (l : List ℚ) :
    ∀ (debt interest_rate repayment_rate : ℚ), 0 ≤ debt →
      ∀ p ∈ simulate_lbo_cashflows l debt interest_rate repayment_rate, 0 ≤ p.1 := by
  induction l with
  | nil => intro debt ir rr hd p hp; simp [simulate_lbo_cashflows] at hp
  | cons f rest ih =>
    intro debt ir rr hd p hp
    rw [show simulate_lbo_cashflows (f :: rest) debt ir rr =
        fractional_sweep_step ir rr debt f ::
          simulate_lbo_cashflows rest (fractional_sweep_step ir rr debt f).1 ir rr
        from rfl] at hp
    rcases List.mem_cons.mp hp with h | h
    · rw [h]; exact fractional_sweep_step_nonneg ir rr debt f hd
    · exact ih _ ir rr (fractional_sweep_step_nonneg ir rr debt f hd) p h

/-- C3 amended: under the fractional-repayment policy the debt balance never
goes negative (from a nonnegative initial debt), and a year's ending balance
is ≤ its beginning balance whenever that year's post-interest cash flow times
the repayment fraction is nonnegative; but when the post-interest cash flow
is negative the computed repayment is negative and the balance *increases*,
so unconditional monotonicity fails. -/
theorem C3_fractional_sweep_amended :
    (∀ (fcf_operating : List ℚ) (initial_debt interest_rate repayment_rate : ℚ),
      0 ≤ initial_debt →
      ∀ p ∈ calculate_equity_fcf fcf_operating initial_debt interest_rate repayment_rate,
        0 ≤ p.1) ∧
    (∀ (fcf : List ℚ) (initial_debt interest_rate repayment_rate : ℚ),
      0 ≤ initial_debt →
      ∀ p ∈ simulate_lbo_cashflows fcf initial_debt interest_rate repayment_rate,
        0 ≤ p.1) ∧
    (∀ (debt fcf interest_rate repayment_rate : ℚ), 0 ≤ debt →
      0 ≤ (fcf - debt * interest_rate) * repayment_rate →
      (fractional_sweep_step interest_rate repayment_rate debt fcf).1 ≤ debt ∧
      0 ≤ (fractional_sweep_step interest_rate repayment_rate debt fcf).1) :=
  ⟨fun l d ir rr hd => calculate_equity_fcf_balances_nonneg l d ir rr hd,
   fun l d ir rr hd => simulate_lbo_cashflows_balances_nonneg l d ir rr hd,
   fun d f ir rr hd hs =>
     ⟨fractional_sweep_step_mono ir rr d f hd hs,
      fractional_sweep_step_nonneg ir rr d f hd⟩⟩

/-- C3 witness: the nonnegative-balance invariant evaluated on a concrete
simulation (one year, fcf 100, debt 50, rate 10%, fraction 20%). -/
theorem C3_fractional_sweep_amended_witness :
    (0 : ℚ) ≤ 50 ∧
    (∀ p ∈ calculate_equity_fcf [100] 50 (1/10) (1/5), 0 ≤ p.1) :=
  ⟨by norm_num, C3_fractional_sweep_amended.1 [100] 50 (1/10) (1/5) (by norm_num)⟩

/-! ## C5/C6: WACC estimator -/

theorem wacc_weights_nonneg (equity_value debt_value : Option ℚ)
    (he : ∀ e, equity_value = some e → 0 ≤ e)
    (hd : ∀ d, debt_value = some d → 0 ≤ d) :
    0 ≤ (wacc_weights equity_value debt_value).1 ∧
    0 ≤ (wacc_weights equity_value debt_value).2 := by
  have hpos : ∀ (e d : ℚ), (0 : ℚ) ≤ max (e + d) (1/1000000000) :=
    fun e d => le_trans (by norm_num) (le_max_right _ _)
  cases equity_value with
  | none =>
    cases debt_value with
    | none => constructor <;> norm_num [wacc_weights]
    | some d =>
      have hd0 := hd d rfl
      exact ⟨div_nonneg (by norm_num) (hpos 1 d), div_nonneg hd0 (hpos 1 d)⟩
  | some e =>
    have he0 := he e rfl
    cases debt_value with
    | none => exact ⟨div_nonneg he0 (hpos e 0), div_nonneg (by norm_num) (hpos e 0)⟩
    | some d =>
      have hd0 := hd d rfl
      exact ⟨div_nonneg he0 (hpos e d), div_nonneg hd0 (hpos e d)⟩

/-- C5: `compute_wacc` returns CAPM cost of equity and the weighted-average
WACC formula, applying the documented defaults (risk-free 3.5%, premium 6%,
tax 21%, cost of debt 5% unless interest expense and positive debt are both
supplied, 40/60 split when neither equity nor debt value is supplied, beta
1.0 when unavailable) and recording each defaulted field in the returned
assumptions audit trail.  Stated for nonnegative supplied capital values, on
which the negative-weight branch is not taken. -/
theorem C5_compute_wacc_formulas (ticker : String)
    (beta_fetched equity_value debt_value tax_rate risk_free_rate market_premium
      beta_override interest_expense target_debt_ratio : Option ℚ)
    (he : ∀ e, equity_value = some e → 0 ≤ e)
    (hd : ∀ d, debt_value = some d → 0 ≤ d) :
    ∃ r, compute_wacc ticker beta_fetched equity_value debt_value tax_rate
        risk_free_rate market_premium beta_override interest_expense
        target_debt_ratio = .ok r ∧
      r.cost_of_equity = r.risk_free_rate + r.beta * r.market_premium ∧
      r.wacc = r.cost_of_equity * r.equity_weight +
        r.cost_of_debt * (1 - r.tax_rate) * r.debt_weight ∧
      (risk_free_rate = none → r.risk_free_rate = 7/200 ∧
        ("risk_free_rate", "estimé") ∈ r.assumptions) ∧
      (market_premium = none → r.market_premium = 3/50 ∧
        ("market_premium", "estimé") ∈ r.assumptions) ∧
      (tax_rate = none → r.tax_rate = 21/100 ∧
        ("tax_rate", "estimé") ∈ r.assumptions) ∧
      (beta_override = none → beta_fetched = none → r.beta = 1 ∧
        ("beta", "estimé") ∈ r.assumptions) ∧
      ((∀ i d, interest_expense = some i → debt_value = some d → d ≤ 0) →
        r.cost_of_debt = 1/20 ∧ ("cost_of_debt", "estimé") ∈ r.assumptions) ∧
      (∀ i d, interest_expense = some i → debt_value = some d → 0 < d →
        r.cost_of_debt = i / d ∧
        ("cost_of_debt", "calculé sur intérêts/dette") ∈ r.assumptions) ∧
      (equity_value = none → debt_value = none →
        r.equity_weight = 2/5 ∧ r.debt_weight = 3/5 ∧
        ("capital_structure", "estimée (40/60)") ∈ r.assumptions) := by
  obtain ⟨h1, h2⟩ := wacc_weights_nonneg equity_value debt_value he hd
  refine ⟨compute_wacc_result beta_fetched equity_value debt_value tax_rate
      risk_free_rate market_premium beta_override interest_expense,
    ?_, rfl, rfl, ?_, ?_, ?_, ?_, ?_, ?_, ?_⟩
  · simp only [compute_wacc]
    split
    · rename_i hcon
      exact absurd hcon (not_or.mpr ⟨not_lt.mpr h1, not_lt.mpr h2⟩)
    · rfl
  · intro h
    subst h
    exact ⟨rfl, by simp [compute_wacc_result, wacc_assumptions]⟩
  · intro h
    subst h
    exact ⟨rfl, by simp [compute_wacc_result, wacc_assumptions]⟩
  · intro h
    subst h
    exact ⟨rfl, by simp [compute_wacc_result, wacc_assumptions]⟩
  · intro hbo hbf
    subst hbo
    subst hbf
    exact ⟨rfl, by simp [compute_wacc_result, wacc_assumptions]⟩
  · intro h
    cases interest_expense with
    | none => exact ⟨rfl, by simp [compute_wacc_result, wacc_assumptions]⟩
    | some i =>
      cases debt_value with
      | none => exact ⟨rfl, by simp [compute_wacc_result, wacc_assumptions]⟩
      | some d =>
        have hd0 : ¬ (0 < d) := not_lt.mpr (h i d rfl rfl)
        constructor
        · show wacc_cod (some i) (some d) = 1/20
          simp [wacc_cod, hd0]
        · simp [compute_wacc_result, wacc_assumptions, hd0]
  · intro i d hie hdv hpos
    subst hie
    subst hdv
    constructor
    · show wacc_cod (some i) (some d) = i / d
      simp [wacc_cod, hpos]
    · simp [compute_wacc_result, wacc_assumptions, hpos]
  · intro hev hdv
    subst hev
    subst hdv
    exact ⟨rfl, rfl, by simp [compute_wacc_result, wacc_assumptions]⟩

/-- C5 witness: the WACC contract evaluated with every optional input
omitted — all defaults active and all recorded. -/
theorem C5_compute_wacc_formulas_witness :
    (∀ e : ℚ, (none : Option ℚ) = some e → 0 ≤ e) ∧
    (∀ d : ℚ, (none : Option ℚ) = some d → 0 ≤ d) ∧
    (∃ r, compute_wacc "ACME" none none none none none none none none none = .ok r ∧
      r.cost_of_equity = r.risk_free_rate + r.beta * r.market_premium ∧
      r.wacc = r.cost_of_equity * r.equity_weight +
        r.cost_of_debt * (1 - r.tax_rate) * r.debt_weight ∧
      ((none : Option ℚ) = none → r.risk_free_rate = 7/200 ∧
        ("risk_free_rate", "estimé") ∈ r.assumptions) ∧
      ((none : Option ℚ) = none → r.market_premium = 3/50 ∧
        ("market_premium", "estimé") ∈ r.assumptions) ∧
      ((none : Option ℚ) = none → r.tax_rate = 21/100 ∧
        ("tax_rate", "estimé") ∈ r.assumptions) ∧
      ((none : Option ℚ) = none → (none : Option ℚ) = none → r.beta = 1 ∧
        ("beta", "estimé") ∈ r.assumptions) ∧
      ((∀ i d : ℚ, (none : Option ℚ) = some i → (none : Option ℚ) = some d → d ≤ 0) →
        r.cost_of_debt = 1/20 ∧ ("cost_of_debt", "estimé") ∈ r.assumptions) ∧
      (∀ i d : ℚ, (none : Option ℚ) = some i → (none : Option ℚ) = some d → 0 < d →
        r.cost_of_debt = i / d ∧
        ("cost_of_debt", "calculé sur intérêts/dette") ∈ r.assumptions) ∧
      ((none : Option ℚ) = none → (none : Option ℚ) = none →
        r.equity_weight = 2/5 ∧ r.debt_weight = 3/5 ∧
        ("capital_structure", "estimée (40/60)") ∈ r.assumptions)) :=
  ⟨fun _ h => Option.noConfusion h, fun _ h => Option.noConfusion h,
   C5_compute_wacc_formulas "ACME" none none none none none none none none none
     (fun _ h => Option.noConfusion h) (fun _ h => Option.noConfusion h)⟩

/-- C6 / code bug: deriving a negative capital weight (here equity −1 against
debt 2) reaches `warnings.warn(...)`, but the module never imports
`warnings`, so `compute_wacc` raises `NameError` instead of warning and
returning a result. -/
theorem C6_negative_weight_raises_name_error :
    compute_wacc "ACME" none (some (-1)) (some 2) none none none none none none =
      .error ("NameError: name 'warnings' is not defined") := by
  norm_num [compute_wacc, compute_wacc_result, wacc_weights, wacc_beta, wacc_cod,
    wacc_assumptions, max_def]

/-! ## C8: revenue compounding in the Projector -/

theorem projFinRows_length (n : Nat) : ∀ (i : Nat) (year0 : Int)
    (revenue revenue_growth ebitda_margin ebit_margin : ℚ) (capex_hist : Option ℚ)
    (revenue_prev : ℚ),
    (projFinRows n i year0 revenue revenue_growth ebitda_margin ebit_margin
      capex_hist revenue_prev).length = n := by
  induction n with
  | zero => intro i y0 rev g em bm ch rp; rfl
  | succ m ih =>
    intro i y0 rev g em bm ch rp
    simp only [projFinRows, List.length_cons, ih]

theorem projFinRows_revenue (n : Nat) : ∀ (i : Nat) (year0 : Int)
    (revenue revenue_growth ebitda_margin ebit_margin : ℚ) (capex_hist : Option ℚ)
    (revenue_prev : ℚ) (k : Nat), k < n →
    ((projFinRows n i year0 revenue revenue_growth ebitda_margin ebit_margin
        capex_hist revenue_prev).getD k ⟨0, 0, 0, 0, 0, 0⟩).revenue =
      revenue * (1 + revenue_growth) ^ (k + 1) := by
  induction n with
  | zero => intro i y0 rev g em bm ch rp k hk; exact absurd hk (Nat.not_lt_zero k)
  | succ m ih =>
    intro i y0 rev g em bm ch rp k hk
    cases k with
    | zero => simp [projFinRows]
    | succ j =>
      have hj : j < m := Nat.lt_of_succ_lt_succ hk
      calc ((projFinRows (m + 1) i y0 rev g em bm ch rp).getD (j + 1)
              ⟨0, 0, 0, 0, 0, 0⟩).revenue
          = ((projFinRows m (i + 1) y0 (rev * (1 + g)) g em bm ch rp).getD j
              ⟨0, 0, 0, 0, 0, 0⟩).revenue := by
            simp only [projFinRows, List.getD_cons_succ]
        _ = rev * (1 + g) * (1 + g) ^ (j + 1) := ih (i + 1) y0 _ g em bm ch rp j hj
        _ = rev * (1 + g) ^ (j + 1 + 1) := by ring

/-- C8 amended: the projected revenue in year `i` equals
`R × (1+g)^i` where `R` is the last (most recent) historical revenue; hence
the sequence is strictly increasing for `g > 0` *provided `R > 0`*, and
constant for `g = 0`.  For `R ≤ 0` (e.g. a zero last revenue) strict growth
fails, so the claim's unconditional monotonicity clause is too strong. -/
theorem C8_projection_revenue_amended (df : List FinRow) (years : Nat) (g : ℚ)
    (r0 r1 : FinRow) (rest : List FinRow)
    (hs : sortByDateDesc df = r0 :: r1 :: rest) :
    ∃ ps, project_financials df years g = some ps ∧ ps.length = years ∧
      (∀ i, i < years →
        (ps.getD i ⟨0, 0, 0, 0, 0, 0⟩).revenue = r0.totalrevenue * (1 + g) ^ (i + 1)) ∧
      (0 < r0.totalrevenue → 0 < g → ∀ i, i + 1 < years →
        (ps.getD i ⟨0, 0, 0, 0, 0, 0⟩).revenue <
          (ps.getD (i + 1) ⟨0, 0, 0, 0, 0, 0⟩).revenue) ∧
      (g = 0 → ∀ i, i < years →
        (ps.getD i ⟨0, 0, 0, 0, 0, 0⟩).revenue = r0.totalrevenue) := by
  refine ⟨projFinRows years 1 r0.date r0.totalrevenue g r0.ebitda_margin
      r0.ebit_margin ((df.head?).bind (fun r => r.capex)) r1.totalrevenue,
    ?_, projFinRows_length years 1 r0.date r0.totalrevenue g r0.ebitda_margin
      r0.ebit_margin ((df.head?).bind (fun r => r.capex)) r1.totalrevenue,
    ?_, ?_, ?_⟩
  · simp only [project_financials, hs]
  · intro i hi
    exact projFinRows_revenue years 1 r0.date r0.totalrevenue g r0.ebitda_margin
      r0.ebit_margin ((df.head?).bind (fun r => r.capex)) r1.totalrevenue i hi
  · intro hR hg i hi
    rw [projFinRows_revenue years 1 r0.date r0.totalrevenue g r0.ebitda_margin
        r0.ebit_margin ((df.head?).bind (fun r => r.capex)) r1.totalrevenue i
        (Nat.lt_of_succ_lt hi),
      projFinRows_revenue years 1 r0.date r0.totalrevenue g r0.ebitda_margin
        r0.ebit_margin ((df.head?).bind (fun r => r.capex)) r1.totalrevenue (i + 1) hi]
    have h1g : (1 : ℚ) < 1 + g := by linarith
    exact mul_lt_mul_of_pos_left
      (pow_lt_pow_right₀ h1g (Nat.lt_succ_self (i + 1))) hR
  · intro h0 i hi
    rw [projFinRows_revenue years 1 r0.date r0.totalrevenue g r0.ebitda_margin
        r0.ebit_margin ((df.head?).bind (fun r => r.capex)) r1.totalrevenue i hi,
      h0]
    norm_num

/-- C8 counterexample: a historical table whose last revenue is 0 — with
growth 5% every projected revenue is 0, so the sequence is *not* strictly
increasing even though the growth rate is positive. -/
theorem C8_zero_revenue_counterexample :
    project_financials [⟨2024, 0, 1/2, 2/5, none⟩, ⟨2023, 50, 1/2, 2/5, none⟩]
        2 (1/20) =
      some [⟨2025, 0, 0, 0, 0, 5⟩, ⟨2026, 0, 0, 0, 0, 5⟩] ∧
    (0 : ℚ) < 1/20 ∧
    ¬ ((⟨2025, 0, 0, 0, 0, 5⟩ : ProjFinRow).revenue <
        (⟨2026, 0, 0, 0, 0, 5⟩ : ProjFinRow).revenue) := by
  refine ⟨?_, by norm_num, by norm_num⟩
  norm_num [project_financials, sortByDateDesc, sortInsertFin, projFinRows]

/-- C8 witness: the amended statement at a concrete two-row history with last
revenue 100 and growth 10% (revenues 110, 121, 133.1). -/
theorem C8_projection_revenue_amended_witness :
    sortByDateDesc [⟨2024, 100, 3/10, 1/5, none⟩, ⟨2023, 90, 3/10, 1/5, none⟩] =
      (⟨2024, 100, 3/10, 1/5, none⟩ : FinRow) :: ⟨2023, 90, 3/10, 1/5, none⟩ :: [] ∧
    (∃ ps, project_financials [⟨2024, 100, 3/10, 1/5, none⟩, ⟨2023, 90, 3/10, 1/5, none⟩]
        3 (1/10) = some ps ∧ ps.length = 3 ∧
      (∀ i, i < 3 → (ps.getD i ⟨0, 0, 0, 0, 0, 0⟩).revenue =
        (⟨2024, 100, 3/10, 1/5, none⟩ : FinRow).totalrevenue * (1 + 1/10) ^ (i + 1)) ∧
      (0 < (⟨2024, 100, 3/10, 1/5, none⟩ : FinRow).totalrevenue → 0 < (1/10 : ℚ) →
        ∀ i, i + 1 < 3 →
        (ps.getD i ⟨0, 0, 0, 0, 0, 0⟩).revenue <
          (ps.getD (i + 1) ⟨0, 0, 0, 0, 0, 0⟩).revenue) ∧
      ((1/10 : ℚ) = 0 → ∀ i, i < 3 →
        (ps.getD i ⟨0, 0, 0, 0, 0, 0⟩).revenue =
          (⟨2024, 100, 3/10, 1/5, none⟩ : FinRow).totalrevenue)) :=
  ⟨by norm_num [sortByDateDesc, sortInsertFin],
   C8_projection_revenue_amended [⟨2024, 100, 3/10, 1/5, none⟩, ⟨2023, 90, 3/10, 1/5, none⟩]
     3 (1/10) ⟨2024, 100, 3/10, 1/5, none⟩ ⟨2023, 90, 3/10, 1/5, none⟩ []
     (by norm_num [sortByDateDesc, sortInsertFin])⟩

/-! ## C9: Ratio Engine frame effects -/

theorem colIdx_mem (cols : List String) (c : String) :
    ∀ i, colIdx cols c = some i → c ∈ cols := by
  induction cols with
  | nil => intro i h; exact Option.noConfusion h
  | cons x xs ih =>
    intro i h
    simp only [colIdx] at h
    split at h
    · rename_i hx
      exact hx ▸ List.mem_cons_self x xs
    · rcases Option.map_eq_some'.mp h with ⟨j, hj, _⟩
      exact List.mem_cons_of_mem x (ih j hj)

theorem mem_setCol_self (f : Frame) (c : String) (v : List (Option ℚ)) :
    c ∈ (setCol f c v).cols := by
  unfold setCol
  cases h : colIdx f.cols c with
  | some i => simp only [h]; exact colIdx_mem f.cols c i h
  | none => simp [h]

theorem mem_setCol_of_mem {f : Frame} {c : String} (c' : String)
    (v : List (Option ℚ)) (h : c ∈ f.cols) : c ∈ (setCol f c' v).cols := by
  unfold setCol
  cases hx : colIdx f.cols c' with
  | some i => simp only [hx]; exact h
  | none => simp only [hx]; exact List.mem_append_left _ h

theorem dropnaAll_cols (f : Frame) : (dropnaAll f).cols = f.cols := rfl

theorem profitability_adds_margin_cols (f f' : Frame)
    (h : calculate_profitability_ratios f = .ok f') :
    "ebitda_margin" ∈ f'.cols ∧ "ebit_margin" ∈ f'.cols ∧
    "net_income_margin" ∈ f'.cols := by
  simp only [calculate_profitability_ratios] at h
  split at h
  · rw [Except.ok.injEq] at h
    subst h
    refine ⟨?_, ?_, ?_⟩ <;>
      · split <;> split <;> split <;>
          repeat (first
            | (with_reducible exact mem_setCol_self _ _ _)
            | (with_reducible apply mem_setCol_of_mem))
  · exact absurd h (by simp)

theorem leverage_adds_ratio_cols (f f' : Frame)
    (h : calculate_leverage_ratios f = .ok f') :
    "debt_to_equity" ∈ f'.cols ∧ "debt_to_ebitda" ∈ f'.cols ∧
    "interest_coverage_ratio" ∈ f'.cols ∧ "current_ratio" ∈ f'.cols ∧
    "quick_ratio" ∈ f'.cols := by
  simp only [calculate_leverage_ratios] at h
  split at h
  · rw [Except.ok.injEq] at h
    subst h
    rw [show ∀ g : Frame, (dropnaAll g).cols = g.cols from fun g => rfl]
    refine ⟨?_, ?_, ?_, ?_, ?_⟩ <;>
      repeat (first
        | (with_reducible exact mem_setCol_self _ _ _)
        | (with_reducible apply mem_setCol_of_mem))
  · exact absurd h (by simp)

/-- C9 amended: the Ratio Engine does *not* treat the caller's table as
read-only — both functions drop all-missing rows from the caller's frame in
place and write their derived ratio columns into it, returning that same
(augmented) object rather than a copy. -/
theorem C9_ratio_engine_mutates_amended :
    (∀ f f', calculate_profitability_ratios f = .ok f' →
      "ebitda_margin" ∈ f'.cols ∧ "ebit_margin" ∈ f'.cols ∧
      "net_income_margin" ∈ f'.cols) ∧
    (∀ f f', calculate_leverage_ratios f = .ok f' →
      "debt_to_equity" ∈ f'.cols ∧ "debt_to_ebitda" ∈ f'.cols ∧
      "interest_coverage_ratio" ∈ f'.cols ∧ "current_ratio" ∈ f'.cols ∧
      "quick_ratio" ∈ f'.cols) :=
  ⟨profitability_adds_margin_cols, leverage_adds_ratio_cols⟩

theorem profitability_concrete_eval :
    calculate_profitability_ratios
        ⟨["totalrevenue", "ebitda", "ebit", "netincome"],
         [[some 100, some 30, some 20, some 10]]⟩ =
      .ok ⟨["totalrevenue", "ebitda", "ebit", "netincome",
            "ebitda_margin", "ebit_margin", "net_income_margin"],
           [[some 100, some 30, some 20, some 10,
             some (3/10), some (1/5), some (1/10)]]⟩ := by
  have e0 : dropnaAll ⟨["totalrevenue", "ebitda", "ebit", "netincome"],
      [[some 100, some 30, some 20, some 10]]⟩ =
      ⟨["totalrevenue", "ebitda", "ebit", "netincome"],
       [[some 100, some 30, some 20, some 10]]⟩ := rfl
  have rAll : (["totalrevenue", "ebitda", "ebit", "netincome"].all
      (fun c => (["totalrevenue", "ebitda", "ebit", "netincome"] : List String).contains c))
      = true := by
    decide
  have r1 : (["totalrevenue", "ebitda", "ebit", "netincome", "ebitda_margin",
      "ebit_margin", "net_income_margin"] : List String).contains "stockholdersequity"
      = false := by
    decide
  have r2 : (["totalrevenue", "ebitda", "ebit", "netincome", "ebitda_margin",
      "ebit_margin", "net_income_margin"] : List String).contains "totalassets"
      = false := by
    decide
  have r3 : (["totalrevenue", "ebitda", "ebit", "netincome", "ebitda_margin",
      "ebit_margin", "net_income_margin"] : List String).contains "operatingincome"
      = false := by
    decide
  simp only [calculate_profitability_ratios, e0, setCol, colIdx, getCol, cellAt,
    colZip, cellDiv, String.reduceEq, rAll, r1, r2, r3,
    Option.map_some', Option.map_none', ite_false, ite_true, List.zipWith,
    List.map, List.getElem?_cons_succ, List.getElem?_cons_zero, Option.getD_some,
    Bool.false_and, Bool.false_eq_true, List.cons_append, List.nil_append,
    eq_self_iff_true]
  norm_num

/-- C9 counterexample: a caller's four-column statement table comes back from
`calculate_profitability_ratios` — the same in-place-mutated object — with
three margin columns appended, so the frame the caller passed in is *not*
unchanged. -/
theorem C9_ratio_engine_mutates_counterexample :
    calculate_profitability_ratios
        ⟨["totalrevenue", "ebitda", "ebit", "netincome"],
         [[some 100, some 30, some 20, some 10]]⟩ =
      .ok ⟨["totalrevenue", "ebitda", "ebit", "netincome",
            "ebitda_margin", "ebit_margin", "net_income_margin"],
           [[some 100, some 30, some 20, some 10,
             some (3/10), some (1/5), some (1/10)]]⟩ ∧
    (["totalrevenue", "ebitda", "ebit", "netincome",
      "ebitda_margin", "ebit_margin", "net_income_margin"] : List String) ≠
      ["totalrevenue", "ebitda", "ebit", "netincome"] :=
  ⟨profitability_concrete_eval, by decide⟩

/-- C9 witness: the amended mutation statement evaluated on the concrete
four-column table. -/
theorem C9_ratio_engine_mutates_amended_witness :
    calculate_profitability_ratios
        ⟨["totalrevenue", "ebitda", "ebit", "netincome"],
         [[some 100, some 30, some 20, some 10]]⟩ =
      .ok ⟨["totalrevenue", "ebitda", "ebit", "netincome",
            "ebitda_margin", "ebit_margin", "net_income_margin"],
           [[some 100, some 30, some 20, some 10,
             some (3/10), some (1/5), some (1/10)]]⟩ ∧
    ("ebitda_margin" ∈ ["totalrevenue", "ebitda", "ebit", "netincome",
        "ebitda_margin", "ebit_margin", "net_income_margin"] ∧
     "ebit_margin" ∈ ["totalrevenue", "ebitda", "ebit", "netincome",
        "ebitda_margin", "ebit_margin", "net_income_margin"] ∧
     "net_income_margin" ∈ ["totalrevenue", "ebitda", "ebit", "netincome",
        "ebitda_margin", "ebit_margin", "net_income_margin"]) := by
  exact ⟨profitability_concrete_eval,
    C9_ratio_engine_mutates_amended.1 _ _ profitability_concrete_eval⟩

end EquiVal
